import Mathlib

/-
Verification of the cesium-unreal reference-frame core against its
natural-language specification (spec.md).

The repository snapshot under verification contains the public header
Source/CesiumRuntime/Public/CesiumSubLevelInstance.h together with
configuration files; the implementations of the reference-frame engine
components (Ellipsoid, TransformSet, OriginAuthority, RebaseMonitor,
ListenerRegistry, SubLevelSwitcher) are not part of the snapshot, so those
components are modelled from the specification text, as marked on each
definition.  Numeric quantities are embedded as exact rationals.
-/

open scoped Matrix

namespace CesiumCore

/-- A 4x4 homogeneous matrix, indexed by the 3+1 block decomposition. -/
abbrev HMat4 : Type := Matrix (Fin 3 ⊕ Fin 1) (Fin 3 ⊕ Fin 1) ℚ

/-- A geodetic coordinate: longitude and latitude in degrees, height in
meters above the ellipsoid. -/
structure Geodetic where
  lon : ℚ
  lat : ℚ
  height : ℚ
deriving DecidableEq

/-- A three-component Cartesian vector (engine or ECEF frame). -/
structure Vec3 where
  x : ℚ
  y : ℚ
  z : ℚ
deriving DecidableEq

/-- Squared Euclidean norm of a vector. -/
def normSq (v : Vec3) : ℚ := v.x ^ 2 + v.y ^ 2 + v.z ^ 2

/-- Squared Euclidean distance between two points. -/
def distSq (a b : Vec3) : ℚ :=
  (a.x - b.x) ^ 2 + (a.y - b.y) ^ 2 + (a.z - b.z) ^ 2

/-! ## The declared sub-level instance actor (CesiumSubLevelInstance.h)

The header declares four editable UPROPERTY fields with default values and
editor clamp metadata, plus the Georeference / ResolvedGeoreference pair
with the ResolveGeoreference / InvalidateResolvedGeoreference operations.
-/

/-- The editable configuration fields of ACesiumSubLevelInstance, with the
default values declared in CesiumSubLevelInstance.h. -/
structure ACesiumSubLevelInstance where
  OriginLatitude : ℚ := 39.736401
  OriginLongitude : ℚ := -105.25737
  OriginHeight : ℚ := 2250.0
  LoadRadius : ℚ := 1000.0
deriving DecidableEq

/-- A newly constructed sub-level instance, taking every field default. -/
def defaultSubLevelInstance : ACesiumSubLevelInstance := {}

/-- Editor clamp metadata attached to a UPROPERTY: optional ClampMin and
ClampMax bounds. -/
structure PropertyMeta where
  clampMin : Option ℚ
  clampMax : Option ℚ
deriving DecidableEq

/-- Clamp metadata of OriginLatitude: ClampMin = -90, ClampMax = 90. -/
def originLatitudeMeta : PropertyMeta := ⟨some (-90), some 90⟩

/-- Clamp metadata of OriginLongitude: ClampMin = -180, ClampMax = 180. -/
def originLongitudeMeta : PropertyMeta := ⟨some (-180), some 180⟩

/-- Clamp metadata of OriginHeight: no bounds are declared. -/
def originHeightMeta : PropertyMeta := ⟨none, none⟩

/-- Clamp metadata of LoadRadius: ClampMin = 0, no upper bound. -/
def loadRadiusMeta : PropertyMeta := ⟨some 0, none⟩

/-- Apply an optional lower clamp bound. -/
def applyClampMin : Option ℚ → ℚ → ℚ
  | none, x => x
  | some m, x => max m x

/-- Apply an optional upper clamp bound. -/
def applyClampMax : Option ℚ → ℚ → ℚ
  | none, x => x
  | some m, x => min m x

/-- Confine a value to the editable range declared by clamp metadata. -/
def clampValue (m : PropertyMeta) (x : ℚ) : ℚ :=
  applyClampMax m.clampMax (applyClampMin m.clampMin x)

/-! ## ResolveGeoreference caching

Modelled from the spec: the implementation of
ACesiumSubLevelInstance::ResolveGeoreference and
InvalidateResolvedGeoreference is not in the snapshot; the model follows
the doc comments in CesiumSubLevelInstance.h: ResolvedGeoreference is null
before ResolveGeoreference is called; ResolveGeoreference returns the
Georeference property if set, otherwise a georeference found or created in
the world, and caches the result; InvalidateResolvedGeoreference sets the
cache back to null. -/

/-- The georeference-related state of a sub-level instance: the
Georeference property (null allowed) and the transient cached
ResolvedGeoreference (null before the first resolve). -/
structure SubLevelInstanceState (G : Type) where
  georeference : Option G
  resolvedGeoreference : Option G

/-- A freshly constructed instance: the Georeference property holds
whatever was configured and ResolvedGeoreference is null. -/
def initialSubLevelInstance (G : Type) (geo : Option G) : SubLevelInstanceState G :=
  ⟨geo, none⟩

/-- Modelled from the spec: ResolveGeoreference.  Returns the cached
resolved georeference when present; otherwise resolves to the Georeference
property if set, else to the georeference found or created in the world
(the `world` argument), and caches the result. -/
def resolveGeoreference {G : Type} (world : G) (st : SubLevelInstanceState G) :
    G × SubLevelInstanceState G :=
  match st.resolvedGeoreference with
  | some g => (g, st)
  | none =>
    match st.georeference with
    | some g => (g, { st with resolvedGeoreference := some g })
    | none => (world, { st with resolvedGeoreference := some world })

/-- Modelled from the spec: InvalidateResolvedGeoreference sets the cached
resolved georeference back to null, so the next resolve re-resolves. -/
def invalidateResolvedGeoreference {G : Type} (st : SubLevelInstanceState G) :
    SubLevelInstanceState G :=
  { st with resolvedGeoreference := none }

/-! ## TransformSet / OriginAuthority

Modelled from the spec: the TransformSet and OriginAuthority
implementations are not in the snapshot.  Per spec 4.2, georeferenced to
ECEF is the rotation aligning local East-North-Up at the origin with the
ECEF axes composed with the translation to the origin's ECEF position;
engine-absolute to ECEF further composes a fixed axis-handedness
correction; and the reverse matrices are computed as exact inverses of the
forward ones, never re-derived independently.  The East-North-Up rotation
and ECEF position at a geodetic origin come from the (absent) ellipsoid
math, so they enter the model as an abstract parameter `enu`; the claims
proved here hold for every such parameter whose blocks are invertible,
scale corrections included. -/

/-- The East-North-Up frame at a geodetic point: a 3x3 rotation aligning
local East-North-Up with the ECEF axes and the translation to the point's
ECEF position. -/
structure Enu where
  R : Matrix (Fin 3) (Fin 3) ℚ
  t : Matrix (Fin 3) (Fin 1) ℚ

/-- A rigid transform as a 4x4 homogeneous matrix: rotation block `R`,
translation column `t`. -/
def affineTransform (R : Matrix (Fin 3) (Fin 3) ℚ) (t : Matrix (Fin 3) (Fin 1) ℚ) :
    HMat4 :=
  Matrix.fromBlocks R t 0 1

/-- The exact inverse of a 3x3 block over the rationals, computed from
its adjugate and determinant (the closed form of matrix inversion). -/
def invBlock (M : Matrix (Fin 3) (Fin 3) ℚ) : Matrix (Fin 3) (Fin 3) ℚ :=
  M.det⁻¹ • M.adjugate

/-- The exact inverse of `affineTransform M t`: the block inverted
exactly, the translation mapped through the inverted block and negated.
This is the closed-form exact inverse the spec requires for the reverse
matrices, valid for any invertible block, scale corrections included. -/
def affineInverse (M : Matrix (Fin 3) (Fin 3) ℚ) (t : Matrix (Fin 3) (Fin 1) ℚ) :
    HMat4 :=
  Matrix.fromBlocks (invBlock M) (-(invBlock M * t)) 0 1

/-- The four matrices relating the georeferenced, ECEF and engine-absolute
frames. -/
structure TransformSet where
  georeferencedToEcef : HMat4
  ecefToGeoreferenced : HMat4
  absoluteToEcef : HMat4
  ecefToAbsolute : HMat4

/-- Modelled from the spec: recompute all four matrices from one Origin.
The parameter `enu` supplies the East-North-Up rotation and ECEF position
at the origin; `S` is the fixed axis-handedness correction between the
engine frame and the georeferenced convention.  Both reverse matrices are
the exact closed-form inverses of their forward partners. -/
def computeTransformSet (enu : Geodetic → Enu) (S : Matrix (Fin 3) (Fin 3) ℚ)
    (g : Geodetic) : TransformSet :=
  let e := enu g
  { georeferencedToEcef := affineTransform e.R e.t
    ecefToGeoreferenced := affineInverse e.R e.t
    absoluteToEcef := affineTransform e.R e.t * affineTransform S 0
    ecefToAbsolute := affineInverse S 0 * affineInverse e.R e.t }

/-- Error kinds reported synchronously by the core. -/
inductive CoreError where
  | invalidArgument
deriving DecidableEq

/-- Validation of a geodetic origin: longitude in [-180, 180] and latitude
in [-90, 90]. -/
def validOrigin (g : Geodetic) : Bool :=
  decide (-180 ≤ g.lon) && decide (g.lon ≤ 180) &&
  decide (-90 ≤ g.lat) && decide (g.lat ≤ 90)

/-- Observable events emitted by the core, in emission order.  Listener
identities are natural-number ids. -/
inductive Event where
  | computedTransforms
  | notified (l : ℕ)
  | setOriginCall (g : Geodetic)
  | worldOriginShift (d : Vec3)
deriving DecidableEq

/-- The state owned by OriginAuthority: the live Origin and the
TransformSet derived from it. -/
structure AuthorityState where
  origin : Geodetic
  transforms : TransformSet

/-- Modelled from the spec: setOrigin validates the longitude and latitude
ranges, failing with InvalidArgument otherwise; on success it recomputes
all four matrices from the new origin and then notifies every registered
listener exactly once, before returning.  The returned event list is the
complete trace emitted during the call. -/
def setOrigin (enu : Geodetic → Enu) (S : Matrix (Fin 3) (Fin 3) ℚ)
    (listeners : List ℕ) (_st : AuthorityState) (g : Geodetic) :
    Except CoreError (AuthorityState × List Event) :=
  if validOrigin g then
    Except.ok ({ origin := g, transforms := computeTransformSet enu S g },
      Event.computedTransforms :: listeners.map Event.notified)
  else
    Except.error CoreError.invalidArgument

/-- The caller-observable outcome of a setOrigin call: on failure the
state is left exactly as it was and no event is emitted. -/
def applySetOrigin (enu : Geodetic → Enu) (S : Matrix (Fin 3) (Fin 3) ℚ)
    (listeners : List ℕ) (st : AuthorityState) (g : Geodetic) :
    AuthorityState × List Event :=
  match setOrigin enu S listeners st g with
  | Except.ok r => r
  | Except.error _ => (st, [])

/-- In a trace, every notification event is strictly preceded by a
transform-recomputation event. -/
def notifiedAfterComputed (tr : List Event) : Prop :=
  ∀ i : Fin tr.length, (∃ l, tr.get i = Event.notified l) →
    ∃ j : Fin tr.length, (j : ℕ) < (i : ℕ) ∧ tr.get j = Event.computedTransforms

/-! ## SubLevelSwitcher

Modelled from the spec: the SubLevelSwitcher implementation is not in the
snapshot.  Per spec 4.4, the state is NoLevelActive or LevelActive(K) for
a declared sub-level index K; selectByProximity scans the declared
sub-levels in order, a level being in range when the viewer's distance
from the level's origin (converted to the same frame by the abstract
conversion `conv`) is at most its activation radius; if the active level
is still in range no transition occurs; otherwise the first in-range
level in declaration order becomes active, or no level if none is in
range; selectByIndex is an unconditional transition that fails with
InvalidArgument on an out-of-bounds index.  Distances are compared
through their squares, which over nonnegative radii is equivalent. -/

/-- A declared sub-level descriptor: origin geodetic coordinate,
activation radius in meters, identifier. -/
structure SubLevel where
  origin : Geodetic
  radius : ℚ
  name : ℕ
deriving DecidableEq

/-- The switcher state: none is NoLevelActive, some K is LevelActive(K). -/
abbrev ActiveLevelState : Type := Option ℕ

/-- A level is in range when the viewer's squared distance from the
level's origin, converted to the viewer's frame by `conv`, is at most the
squared activation radius. -/
def inRange (conv : Geodetic → Vec3) (viewer : Vec3) (lvl : SubLevel) : Bool :=
  decide (distSq (conv lvl.origin) viewer ≤ lvl.radius ^ 2)

/-- Index of the first declared sub-level in range, in declaration order. -/
def firstInRange (conv : Geodetic → Vec3) (viewer : Vec3) :
    List SubLevel → Option ℕ
  | [] => none
  | lvl :: rest =>
    if inRange conv viewer lvl then some 0
    else (firstInRange conv viewer rest).map (· + 1)

/-- Modelled from the spec: selectByProximity.  Keeps the active level
when it is still in range (hysteresis); otherwise activates the first
in-range level in declaration order, or none. -/
def selectByProximity (levels : List SubLevel) (conv : Geodetic → Vec3)
    (viewer : Vec3) (st : ActiveLevelState) : ActiveLevelState :=
  match st with
  | some k =>
    match levels[k]? with
    | some lvl =>
      if inRange conv viewer lvl then some k
      else firstInRange conv viewer levels
    | none => firstInRange conv viewer levels
  | none => firstInRange conv viewer levels

/-- Modelled from the spec: selectByIndex.  Unconditional transition to
LevelActive(K); fails with InvalidArgument when K is out of bounds. -/
def selectByIndex (levels : List SubLevel) (k : ℕ) :
    Except CoreError ActiveLevelState :=
  if k < levels.length then Except.ok (some k)
  else Except.error CoreError.invalidArgument

/-- A call into the switcher. -/
inductive SwitcherCall where
  | byProximity (viewer : Vec3)
  | byIndex (k : ℕ)

/-- One switcher step; a failing selectByIndex leaves the state
unchanged. -/
def stepCall (levels : List SubLevel) (conv : Geodetic → Vec3)
    (st : ActiveLevelState) : SwitcherCall → ActiveLevelState
  | SwitcherCall.byProximity v => selectByProximity levels conv v st
  | SwitcherCall.byIndex k =>
    match selectByIndex levels k with
    | Except.ok st2 => st2
    | Except.error _ => st

/-- Run a finite sequence of switcher calls from the initial NoLevelActive
state. -/
def runCalls (levels : List SubLevel) (conv : Geodetic → Vec3)
    (calls : List SwitcherCall) : ActiveLevelState :=
  calls.foldl (fun st c => stepCall levels conv st c) none

/-! ## RebaseMonitor

Modelled from the spec: the RebaseMonitor implementation is not in the
snapshot.  Per spec 4.3, checkAndRebase compares the viewer's distance
from the floating local origin with the configured threshold; when the
threshold is exceeded, rebasing is enabled, rebasing inside sub-levels is
allowed (or no sub-level is active), and the placement mode is not
bounding-volume, it converts the viewer's position to geodetic through
the TransformSet and ellipsoid (the abstract `conv` parameter) and
invokes setOrigin with it, then requests one engine world-origin shift by
the viewer's offset.  Otherwise it is a no-op.  Distances are compared
through their squares. -/

/-- Origin placement mode. -/
inductive PlacementMode where
  | explicitGeodetic
  | boundingVolume
deriving DecidableEq

/-- The full core state seen by the rebase monitor. -/
structure CoreState where
  authority : AuthorityState
  listeners : List ℕ
  activeLevel : ActiveLevelState
  placementMode : PlacementMode
  rebaseEnabled : Bool
  rebaseThreshold : ℚ
  rebaseInsideSublevels : Bool

/-- Modelled from the spec: checkAndRebase.  Returns the next core state
and the complete trace of events emitted before the call returns. -/
def checkAndRebase (enu : Geodetic → Enu) (S : Matrix (Fin 3) (Fin 3) ℚ)
    (conv : TransformSet → Vec3 → Geodetic) (st : CoreState) (v : Vec3) :
    CoreState × List Event :=
  if st.rebaseEnabled
      && decide (st.rebaseThreshold ^ 2 < normSq v)
      && (decide (st.activeLevel = none) || st.rebaseInsideSublevels)
      && !(decide (st.placementMode = PlacementMode.boundingVolume)) then
    let g := conv st.authority.transforms v
    match setOrigin enu S st.listeners st.authority g with
    | Except.ok (a, evs) =>
      ({ st with authority := a },
        Event.setOriginCall g :: evs ++ [Event.worldOriginShift v])
    | Except.error _ => (st, [])
  else
    (st, [])

/-! ## Concrete instances used by the witnesses -/

/-- A trivial East-North-Up parameter used for concrete witnesses:
identity rotation, zero translation. -/
def enuTrivial : Geodetic → Enu := fun _ => ⟨1, 0⟩

/-- A concrete authority state used for concrete witnesses. -/
def authority0 : AuthorityState :=
  { origin := ⟨0, 0, 0⟩, transforms := computeTransformSet enuTrivial 1 ⟨0, 0, 0⟩ }

/-- A concrete in-range geodetic origin used for concrete witnesses. -/
def gDenver : Geodetic := ⟨-105.25737, 39.736401, 2250⟩

/-- A concrete non-orthonormal scale correction used by witnesses:
uniform meters-to-centimeters scaling by 100. -/
def scaleCorrection : Matrix (Fin 3) (Fin 3) ℚ :=
  Matrix.diagonal (fun _ => (100 : ℚ))

/-- A concrete sub-level with activation radius 1000, declared second. -/
def subA : SubLevel := ⟨⟨0, 0, 0⟩, 1000, 0⟩

/-- A concrete overlapping sub-level with activation radius 1000,
declared first. -/
def subB : SubLevel := ⟨⟨800, 0, 0⟩, 1000, 1⟩

/-- A concrete frame conversion used by switcher witnesses. -/
def convTrivial : Geodetic → Vec3 := fun g => ⟨g.lon, g.lat, g.height⟩

/-- A concrete viewer-to-geodetic conversion used by rebase witnesses. -/
def convGeo : TransformSet → Vec3 → Geodetic := fun _ v => ⟨v.x, v.y, v.z⟩

/-- A concrete core state in explicit-geodetic mode with rebase threshold
10000 meters. -/
def coreState0 : CoreState :=
  { authority := authority0
    listeners := [7]
    activeLevel := none
    placementMode := PlacementMode.explicitGeodetic
    rebaseEnabled := true
    rebaseThreshold := 10000
    rebaseInsideSublevels := true }

/-- The same concrete core state in bounding-volume placement mode. -/
def coreStateBV : CoreState :=
  { coreState0 with placementMode := PlacementMode.boundingVolume }

end CesiumCore

namespace CesiumCore

/-- The closed-form inverse block agrees with the matrix inverse. -/
theorem invBlock_eq_inv (M : Matrix (Fin 3) (Fin 3) ℚ) : invBlock M = M⁻¹ := by
  rw [Matrix.inv_def, Ring.inverse_eq_inv]
  rfl

/-- An affine transform with an invertible block composed with its
closed-form exact inverse yields the identity. -/
theorem affineTransform_mul_affineInverse (M : Matrix (Fin 3) (Fin 3) ℚ)
    (t : Matrix (Fin 3) (Fin 1) ℚ) (h : M.det ≠ 0) :
    affineTransform M t * affineInverse M t = 1 := by
  have hM : M * invBlock M = 1 := by
    rw [invBlock_eq_inv]
    exact Matrix.mul_nonsing_inv M (isUnit_iff_ne_zero.mpr h)
  unfold affineTransform affineInverse
  rw [Matrix.fromBlocks_multiply]
  simp [mul_neg, ← Matrix.mul_assoc, hM, Matrix.fromBlocks_one]

/-- C5: for every origin, each reverse matrix of the recomputed
TransformSet is the exact inverse of its forward partner, so
georeferenced-to-ECEF composed with ECEF-to-georeferenced, and
engine-absolute-to-ECEF composed with ECEF-to-engine-absolute, are exactly
the identity matrix (hence within 1e-9 of it), for every invertible
East-North-Up rotation and every invertible scale/axis-handedness
correction. -/
theorem transformSet_inverse_consistency (enu : Geodetic → Enu)
    (S : Matrix (Fin 3) (Fin 3) ℚ) (g : Geodetic)
    (hR : ((enu g).R).det ≠ 0) (hS : S.det ≠ 0) :
    (computeTransformSet enu S g).georeferencedToEcef *
      (computeTransformSet enu S g).ecefToGeoreferenced = 1 ∧
    (computeTransformSet enu S g).absoluteToEcef *
      (computeTransformSet enu S g).ecefToAbsolute = 1 := by
  have hfwd := affineTransform_mul_affineInverse (enu g).R (enu g).t hR
  have hcorr := affineTransform_mul_affineInverse S 0 hS
  refine ⟨hfwd, ?_⟩
  show (affineTransform (enu g).R (enu g).t * affineTransform S 0) *
      (affineInverse S 0 * affineInverse (enu g).R (enu g).t) = 1
  rw [Matrix.mul_assoc, ← Matrix.mul_assoc (affineTransform S 0), hcorr,
    Matrix.one_mul, hfwd]

/-- Witness for C5 at the identity East-North-Up frame with a
non-orthonormal correction: a uniform scale by 100, the kind of unit
conversion the spec explicitly allows. -/
theorem transformSet_inverse_consistency_witness :
    ((enuTrivial ⟨0, 0, 0⟩).R).det ≠ 0 ∧
    scaleCorrection.det ≠ 0 ∧
    ((computeTransformSet enuTrivial scaleCorrection ⟨0, 0, 0⟩).georeferencedToEcef *
      (computeTransformSet enuTrivial scaleCorrection ⟨0, 0, 0⟩).ecefToGeoreferenced = 1 ∧
    (computeTransformSet enuTrivial scaleCorrection ⟨0, 0, 0⟩).absoluteToEcef *
      (computeTransformSet enuTrivial scaleCorrection ⟨0, 0, 0⟩).ecefToAbsolute = 1) :=
  ⟨by norm_num [enuTrivial],
    by norm_num [scaleCorrection, Matrix.det_diagonal],
    transformSet_inverse_consistency enuTrivial scaleCorrection ⟨0, 0, 0⟩
      (by norm_num [enuTrivial]) (by norm_num [scaleCorrection, Matrix.det_diagonal])⟩

/-- C3: setOrigin with longitude outside [-180, 180] or latitude outside
[-90, 90] fails synchronously with InvalidArgument and the caller
observes exactly the prior state with no events; with in-range
coordinates it succeeds and installs all four matrices recomputed from
the new origin in one step. -/
theorem setOrigin_validates (enu : Geodetic → Enu) (S : Matrix (Fin 3) (Fin 3) ℚ)
    (listeners : List ℕ) (st : AuthorityState) (g : Geodetic) :
    (validOrigin g = false →
      setOrigin enu S listeners st g = Except.error CoreError.invalidArgument ∧
      applySetOrigin enu S listeners st g = (st, [])) ∧
    (validOrigin g = true →
      ∃ tr, setOrigin enu S listeners st g =
        Except.ok ({ origin := g, transforms := computeTransformSet enu S g }, tr)) := by
  constructor
  · intro hv
    constructor
    · simp [setOrigin, hv]
    · simp [applySetOrigin, setOrigin, hv]
  · intro hv
    exact ⟨Event.computedTransforms :: listeners.map Event.notified,
      by simp [setOrigin, hv]⟩

/-- Witness for C3: a failing out-of-range call and a succeeding in-range
call at concrete coordinates. -/
theorem setOrigin_validates_witness :
    (validOrigin ⟨200, 0, 0⟩ = false ∧
      setOrigin enuTrivial 1 [3] authority0 ⟨200, 0, 0⟩ =
        Except.error CoreError.invalidArgument ∧
      applySetOrigin enuTrivial 1 [3] authority0 ⟨200, 0, 0⟩ = (authority0, [])) ∧
    (validOrigin gDenver = true ∧
      ∃ tr, setOrigin enuTrivial 1 [3] authority0 gDenver =
        Except.ok (⟨gDenver, computeTransformSet enuTrivial 1 gDenver⟩, tr)) :=
  ⟨⟨by decide,
    (setOrigin_validates enuTrivial 1 [3] authority0 ⟨200, 0, 0⟩).1 (by decide)⟩,
   ⟨by norm_num [validOrigin, gDenver],
    (setOrigin_validates enuTrivial 1 [3] authority0 gDenver).2
      (by norm_num [validOrigin, gDenver])⟩⟩

/-- C4: a valid setOrigin call succeeds and its emitted trace notifies
each registered listener exactly as many times as it is registered (hence
exactly once for a listener registered once), every notification comes
strictly after the transform recomputation event, and the trace is
complete when the call returns, with the returned state already holding
the recomputed matrices. -/
theorem setOrigin_notifies_once (enu : Geodetic → Enu)
    (S : Matrix (Fin 3) (Fin 3) ℚ) (listeners : List ℕ) (st : AuthorityState)
    (g : Geodetic) (l : ℕ) (hv : validOrigin g = true) :
    ∃ a tr, setOrigin enu S listeners st g = Except.ok (a, tr) ∧
      tr.count (Event.notified l) = listeners.count l ∧
      notifiedAfterComputed tr ∧
      a.transforms = computeTransformSet enu S g := by
  refine ⟨{ origin := g, transforms := computeTransformSet enu S g },
    Event.computedTransforms :: listeners.map Event.notified, ?_, ?_, ?_, rfl⟩
  · simp [setOrigin, hv]
  · rw [List.count_cons]
    rw [List.count_map_of_injective listeners Event.notified
      (fun a b hab => by injection hab) l]
    simp
  · intro i hi
    have h0 : (0 : ℕ) <
        (Event.computedTransforms :: listeners.map Event.notified).length := by
      simp
    refine ⟨⟨0, h0⟩, ?_, rfl⟩
    obtain ⟨l', hl'⟩ := hi
    rcases Nat.eq_zero_or_pos i.val with h | h
    · exfalso
      have hz : (Event.computedTransforms :: listeners.map Event.notified).get i =
          Event.computedTransforms := by
        have hie : i = ⟨0, h0⟩ := Fin.ext h
        rw [hie]
        rfl
      rw [hz] at hl'
      exact Event.noConfusion hl'
    · exact h

/-- Witness for C4: one listener registered once is notified exactly once
by a concrete valid call. -/
theorem setOrigin_notifies_once_witness :
    validOrigin ⟨10, 20, 30⟩ = true ∧
    ∃ a tr, setOrigin enuTrivial 1 [7] authority0 ⟨10, 20, 30⟩ =
        Except.ok (a, tr) ∧
      tr.count (Event.notified 7) = [7].count 7 ∧
      notifiedAfterComputed tr ∧
      a.transforms = computeTransformSet enuTrivial 1 ⟨10, 20, 30⟩ :=
  ⟨by decide,
    setOrigin_notifies_once enuTrivial 1 [7] authority0 ⟨10, 20, 30⟩ 7 (by decide)⟩

/-- C10: a newly constructed ACesiumSubLevelInstance has the declared
default values OriginLatitude = 39.736401, OriginLongitude = -105.25737,
OriginHeight = 2250.0, LoadRadius = 1000.0, and the declared clamp
metadata confines OriginLatitude to [-90, 90], OriginLongitude to
[-180, 180], and LoadRadius to nonnegative values. -/
theorem subLevelInstance_defaults_and_ranges :
    defaultSubLevelInstance.OriginLatitude = 39.736401 ∧
    defaultSubLevelInstance.OriginLongitude = -105.25737 ∧
    defaultSubLevelInstance.OriginHeight = 2250.0 ∧
    defaultSubLevelInstance.LoadRadius = 1000.0 ∧
    originLatitudeMeta = ⟨some (-90), some 90⟩ ∧
    originLongitudeMeta = ⟨some (-180), some 180⟩ ∧
    loadRadiusMeta = ⟨some 0, none⟩ ∧
    (∀ x : ℚ, -90 ≤ clampValue originLatitudeMeta x ∧
      clampValue originLatitudeMeta x ≤ 90) ∧
    (∀ x : ℚ, -180 ≤ clampValue originLongitudeMeta x ∧
      clampValue originLongitudeMeta x ≤ 180) ∧
    (∀ x : ℚ, 0 ≤ clampValue loadRadiusMeta x) := by
  refine ⟨rfl, rfl, rfl, rfl, rfl, rfl, rfl, ?_, ?_, ?_⟩
  · intro x
    constructor
    · exact le_min (by norm_num) (le_max_left _ _)
    · exact min_le_left _ _
  · intro x
    constructor
    · exact le_min (by norm_num) (le_max_left _ _)
    · exact min_le_left _ _
  · intro x
    exact le_max_left _ _

/-- C9: ResolvedGeoreference is null before the first resolve; a resolve
caches its result so a second resolve returns the same georeference and
changes nothing; InvalidateResolvedGeoreference resets the cache to null. -/
theorem resolveGeoreference_cached (G : Type) (world : G) (geo : Option G)
    (st : SubLevelInstanceState G) :
    (initialSubLevelInstance G geo).resolvedGeoreference = none ∧
    (resolveGeoreference world st).2.resolvedGeoreference =
      some (resolveGeoreference world st).1 ∧
    resolveGeoreference world (resolveGeoreference world st).2 =
      resolveGeoreference world st ∧
    (invalidateResolvedGeoreference st).resolvedGeoreference = none := by
  refine ⟨rfl, ?_, ?_, rfl⟩
  · unfold resolveGeoreference
    cases h : st.resolvedGeoreference with
    | some g => simp [h]
    | none =>
      cases hg : st.georeference with
      | some g => simp
      | none => simp
  · unfold resolveGeoreference
    cases h : st.resolvedGeoreference with
    | some g => simp [h]
    | none =>
      cases hg : st.georeference with
      | some g => simp
      | none => simp

/-- The first in-range index returned by a proximity scan is an index of
a declared sub-level. -/
theorem firstInRange_lt_length (conv : Geodetic → Vec3) (viewer : Vec3) :
    ∀ levels k, firstInRange conv viewer levels = some k → k < levels.length := by
  intro levels
  induction levels with
  | nil => intro k h; simp [firstInRange] at h
  | cons lvl rest ih =>
    intro k h
    unfold firstInRange at h
    by_cases hr : inRange conv viewer lvl
    · rw [if_pos hr] at h
      cases h
      simp
    · rw [if_neg hr] at h
      cases hm : firstInRange conv viewer rest with
      | none => rw [hm] at h; simp at h
      | some j =>
        rw [hm] at h
        simp at h
        have := ih j hm
        simp [List.length_cons]
        omega

/-- One switcher step preserves validity of the active index. -/
theorem stepCall_validIndex (levels : List SubLevel) (conv : Geodetic → Vec3)
    (st : ActiveLevelState) (c : SwitcherCall)
    (h : ∀ k, st = some k → k < levels.length) :
    ∀ k, stepCall levels conv st c = some k → k < levels.length := by
  intro k hk
  cases c with
  | byProximity v =>
    cases st with
    | none =>
      simp only [stepCall, selectByProximity] at hk
      exact firstInRange_lt_length conv v levels k hk
    | some k0 =>
      simp only [stepCall, selectByProximity] at hk
      split at hk
      · split at hk
        · injection hk with hk2
          subst hk2
          exact h k0 rfl
        · exact firstInRange_lt_length conv v levels k hk
      · exact firstInRange_lt_length conv v levels k hk
  | byIndex j =>
    by_cases hj : j < levels.length
    · simp only [stepCall, selectByIndex, hj, if_true, Option.some.injEq] at hk
      subst hk
      exact hj
    · simp only [stepCall, selectByIndex, hj, if_false] at hk
      exact h k hk

/-- Any run of the switcher from a valid state keeps the active index
valid. -/
theorem runCallsAux_validIndex (levels : List SubLevel) (conv : Geodetic → Vec3) :
    ∀ (calls : List SwitcherCall) (st : ActiveLevelState),
      (∀ k, st = some k → k < levels.length) →
      ∀ k, calls.foldl (fun s c => stepCall levels conv s c) st = some k →
        k < levels.length := by
  intro calls
  induction calls with
  | nil => intro st h k hk; exact h k hk
  | cons c rest ih =>
    intro st h k hk
    rw [List.foldl_cons] at hk
    exact ih (stepCall levels conv st c)
      (stepCall_validIndex levels conv st c h) k hk

/-- C1: after any finite sequence of selectByProximity and selectByIndex
calls from NoLevelActive, the switcher state is NoLevelActive or
LevelActive(K) for exactly one declared index K; it never holds two
active levels. -/
theorem singleActive_invariant (levels : List SubLevel) (conv : Geodetic → Vec3)
    (calls : List SwitcherCall) :
    runCalls levels conv calls = none ∨
    ∃ k, k < levels.length ∧ runCalls levels conv calls = some k ∧
      ∀ j, runCalls levels conv calls = some j → j = k := by
  cases hr : runCalls levels conv calls with
  | none => exact Or.inl rfl
  | some k =>
    refine Or.inr ⟨k, ?_, rfl, ?_⟩
    · exact runCallsAux_validIndex levels conv calls none (by intro j hj; cases hj) k hr
    · intro j hj
      exact (Option.some.inj hj).symm

/-- C7: when the active level is still within its activation radius,
selectByProximity performs no transition, regardless of any other level
also being in range. -/
theorem selectByProximity_hysteresis (levels : List SubLevel)
    (conv : Geodetic → Vec3) (viewer : Vec3) (k : ℕ) (lvl : SubLevel)
    (hk : levels[k]? = some lvl) (hr : inRange conv viewer lvl = true) :
    selectByProximity levels conv viewer (some k) = some k := by
  simp [selectByProximity, hk, hr]

/-- Witness for C7: two overlapping sub-levels of radius 1000, the second
one active, the viewer within both radii; no switch occurs even though
the first-declared level is also in range. -/
theorem selectByProximity_hysteresis_witness :
    [subB, subA][1]? = some subA ∧
    inRange convTrivial ⟨500, 0, 0⟩ subA = true ∧
    inRange convTrivial ⟨500, 0, 0⟩ subB = true ∧
    selectByProximity [subB, subA] convTrivial ⟨500, 0, 0⟩ (some 1) = some 1 :=
  ⟨rfl, by norm_num [inRange, distSq, convTrivial, subA],
    by norm_num [inRange, distSq, convTrivial, subB],
    selectByProximity_hysteresis [subB, subA] convTrivial ⟨500, 0, 0⟩ 1 subA rfl
      (by norm_num [inRange, distSq, convTrivial, subA])⟩

/-- C6: when the viewer's distance from the floating origin does not
exceed the threshold, checkAndRebase leaves the entire core state (origin
and all four matrices included) unchanged and emits no event: no matrix
recomputation, no notification, no world-origin shift. -/
theorem checkAndRebase_noop (enu : Geodetic → Enu) (S : Matrix (Fin 3) (Fin 3) ℚ)
    (conv : TransformSet → Vec3 → Geodetic) (st : CoreState) (v : Vec3)
    (h : normSq v ≤ st.rebaseThreshold ^ 2) :
    checkAndRebase enu S conv st v = (st, []) := by
  unfold checkAndRebase
  have hd : decide (st.rebaseThreshold ^ 2 < normSq v) = false :=
    decide_eq_false (not_lt.mpr h)
  rw [hd]
  simp

/-- Witness for C6: a viewer 50 meters from the floating origin with a
10000 meter threshold; the call is a complete no-op. -/
theorem checkAndRebase_noop_witness :
    normSq ⟨30, 40, 0⟩ ≤ coreState0.rebaseThreshold ^ 2 ∧
    checkAndRebase enuTrivial 1 convGeo coreState0 ⟨30, 40, 0⟩ = (coreState0, []) :=
  ⟨by norm_num [normSq, coreState0],
    checkAndRebase_noop enuTrivial 1 convGeo coreState0 ⟨30, 40, 0⟩
      (by norm_num [normSq, coreState0])⟩

/-- C8: in bounding-volume placement mode checkAndRebase never invokes
setOrigin and leaves the state unchanged regardless of the viewer's
distance; conversely a viewer-derived setOrigin invocation can only be
emitted in explicit-geodetic mode with rebasing enabled and the threshold
exceeded. -/
theorem checkAndRebase_boundingVolume (enu : Geodetic → Enu)
    (S : Matrix (Fin 3) (Fin 3) ℚ) (conv : TransformSet → Vec3 → Geodetic)
    (st : CoreState) (v : Vec3) :
    (st.placementMode = PlacementMode.boundingVolume →
      checkAndRebase enu S conv st v = (st, [])) ∧
    (∀ g, Event.setOriginCall g ∈ (checkAndRebase enu S conv st v).2 →
      st.placementMode = PlacementMode.explicitGeodetic ∧
      st.rebaseEnabled = true ∧
      st.rebaseThreshold ^ 2 < normSq v) := by
  constructor
  · intro hm
    unfold checkAndRebase
    rw [hm]
    simp
  · intro g hg
    unfold checkAndRebase at hg
    by_cases hc : (st.rebaseEnabled
        && decide (st.rebaseThreshold ^ 2 < normSq v)
        && (decide (st.activeLevel = none) || st.rebaseInsideSublevels)
        && !(decide (st.placementMode = PlacementMode.boundingVolume))) = true
    · have hparts := hc
      simp only [Bool.and_eq_true, Bool.not_eq_true', decide_eq_true_eq,
        decide_eq_false_iff_not] at hparts
      obtain ⟨⟨⟨hen, hth⟩, _⟩, hpm⟩ := hparts
      refine ⟨?_, hen, hth⟩
      cases hpmv : st.placementMode with
      | explicitGeodetic => rfl
      | boundingVolume => exact absurd hpmv hpm
    · rw [if_neg hc] at hg
      simp at hg

/-- Witness for C8: a bounding-volume-mode state with the viewer far
beyond the threshold; checkAndRebase changes nothing and emits nothing. -/
theorem checkAndRebase_boundingVolume_witness :
    coreStateBV.placementMode = PlacementMode.boundingVolume ∧
    checkAndRebase enuTrivial 1 convGeo coreStateBV ⟨0, 0, 50000⟩ =
      (coreStateBV, []) :=
  ⟨rfl, (checkAndRebase_boundingVolume enuTrivial 1 convGeo coreStateBV
    ⟨0, 0, 50000⟩).1 rfl⟩

end CesiumCore
